import Mathlib

/-!
Shallow embedding of `src/streamlit_app.py` (the single script of the
drcmap repository).

Modelling conventions:
* CSV cell values (admin names, facility names, the `ADM2_FR` property)
  are a generic type `α` with a linear order: the script only ever
  compares them for equality and sorts them, so their concrete string
  representation is irrelevant to every claim.
* `Lat` / `Lon` are only ever copied from a record into the map display,
  never computed with, so they are modelled as `Int` (any type with
  decidable equality would do).
* Each `st.error` / `st.warning` / `st.info` / the "No data found" write
  is one constructor of `Message`; exceptions raised by `pd.read_csv`
  are a generic type `ε`.
* `st.stop()` is modelled by the output carrying `rendered = none`:
  the script halts before ever reaching the `st_folium` render call.
* A load function decorated with `@st.cache_data` is modelled by
  `cache_data_call`: the first call performs the file read, later calls
  return the cached value.  The file content is fixed for the session.
-/

namespace DRCMap

/-- A row of `drc_admin_data.csv` (`data` in the script): columns
`Admin1`, `Admin2`, `Admin3`, `Lat`, `Lon`. -/
structure LocationRecord (α : Type) where
  admin1 : α
  admin2 : α
  admin3 : α
  lat : Int
  lon : Int
deriving DecidableEq

/-- A row of `drc_health_data.csv` or `drc_port_data.csv`: columns
`Name`, `Lat`, `Lon`. -/
structure FacilityRecord (α : Type) where
  name : α
  lat : Int
  lon : Int
deriving DecidableEq

/-- One feature of the `drc_admin2.geojson` FeatureCollection.
`adm2_fr` is `feature.get("properties", {}).get("ADM2_FR")`, which is
absent (`none`) when the properties dict or the key is missing;
`payload` stands for the rest of the feature (geometry etc.), which the
script never inspects but carries into the overlay. -/
structure Feature (α : Type) where
  adm2_fr : Option α
  payload : α
deriving DecidableEq

/-- The parsed GeoJSON document: the script reads
`admin2_geojson.get("features", [])`.  A `GeoJson` value stands for a
truthy parsed document (the `if admin2_geojson:` guard). -/
structure GeoJson (α : Type) where
  features : List (Feature α)
deriving DecidableEq

/-- Marker placed for a row of `final_data`: popup
`f"{row['Admin1']} | {row['Admin2']} | {row['Admin3']}"` and position
`[row['Lat'], row['Lon']]`. -/
structure LocationMarker (α : Type) where
  popup1 : α
  popup2 : α
  popup3 : α
  lat : Int
  lon : Int
deriving DecidableEq

/-- Marker placed for a facility row: popup `f"Hospital: {row['Name']}"`
(resp. `Port:`) and position `[row['Lat'], row['Lon']]`.  The constant
label prefix is dropped; `popupName` is the row's `Name`. -/
structure FacilityMarker (α : Type) where
  popupName : α
  lat : Int
  lon : Int
deriving DecidableEq

/-- The messages the script can emit, one constructor per `st.error` /
`st.warning` / `st.info` / `st.write` diagnostic call site. -/
inductive Message (ε : Type) where
  | location_csv_error (e : ε)
  | hospital_csv_error (e : ε)
  | port_csv_error (e : ε)
  | admin2_file_warning
  | no_polygon_info
  | no_data_found
deriving DecidableEq

/-- The session environment: the outcome each `pd.read_csv` would have
(`Except.error e` models the call raising exception `e`), and the
GeoJSON file when it exists on disk (`os.path.exists`). -/
structure Env (α ε : Type) where
  location_csv : Except ε (List (LocationRecord α))
  health_csv : Except ε (List (FacilityRecord α))
  port_csv : Except ε (List (FacilityRecord α))
  geojson_file : Option (GeoJson α)

/-- The user's widget state for one script run: the three selectbox
values and the two layer checkboxes. -/
structure UserInput (α : Type) where
  selected_admin1 : α
  selected_admin2 : α
  selected_admin3 : α
  show_hospitals : Bool
  show_ports : Bool
deriving DecidableEq

/-- The map handed to `st_folium`: center and zoom of `folium.Map`, the
markers of `final_data`, and the three optional overlays. -/
structure FoliumMap (α : Type) where
  center : Int × Int
  zoom : Nat
  location_markers : List (LocationMarker α)
  boundary : Option (List (Feature α))
  hospitals : Option (List (FacilityMarker α))
  ports : Option (List (FacilityMarker α))
  layer_control : Bool
deriving DecidableEq

/-- Everything one script run shows the user.  `rendered = none` means
`st.stop()` ran and `st_folium` was never reached. -/
structure Output (α ε : Type) where
  messages : List (Message ε)
  displayed_coords : Option (Int × Int)
  rendered : Option (FoliumMap α)
deriving DecidableEq

variable {α : Type} [LinearOrder α] {ε : Type}

/-- `data[data['Admin1'] == selected_admin1]` (line 76). -/
def filtered_data_admin1 (data : List (LocationRecord α)) (selected_admin1 : α) :
    List (LocationRecord α) :=
  data.filter (fun r => decide (r.admin1 = selected_admin1))

/-- `filtered_data_admin1[filtered_data_admin1['Admin2'] == selected_admin2]` (line 81). -/
def filtered_data_admin2 (data : List (LocationRecord α)) (selected_admin1 selected_admin2 : α) :
    List (LocationRecord α) :=
  (filtered_data_admin1 data selected_admin1).filter (fun r => decide (r.admin2 = selected_admin2))

/-- `filtered_data_admin2[filtered_data_admin2['Admin3'] == selected_admin3]` (line 85). -/
def final_data (data : List (LocationRecord α))
    (selected_admin1 selected_admin2 selected_admin3 : α) : List (LocationRecord α) :=
  (filtered_data_admin2 data selected_admin1 selected_admin2).filter
    (fun r => decide (r.admin3 = selected_admin3))

/-- pandas `Series.unique()`: distinct values in order of first
occurrence.  `seen` accumulates the values already emitted. -/
def uniqueAux [DecidableEq α] (seen : List α) : List α → List α
  | [] => []
  | x :: xs => if x ∈ seen then uniqueAux seen xs else x :: uniqueAux (x :: seen) xs

/-- `column.unique()` on a column given as a list of cell values. -/
def unique [DecidableEq α] (l : List α) : List α :=
  uniqueAux [] l

/-- Python `sorted(values.unique())`: deduplicate, then stable-sort
ascending. -/
def sorted_options (l : List α) : List α :=
  List.insertionSort (· ≤ ·) (unique l)

/-- `sorted(data['Admin1'].unique())` (line 72). -/
def admin1_options (data : List (LocationRecord α)) : List α :=
  sorted_options (data.map (fun r => r.admin1))

/-- `sorted(filtered_data_admin1['Admin2'].unique())` (line 77). -/
def admin2_options (data : List (LocationRecord α)) (selected_admin1 : α) : List α :=
  sorted_options ((filtered_data_admin1 data selected_admin1).map (fun r => r.admin2))

/-- `sorted(filtered_data_admin2['Admin3'].unique())` (line 82). -/
def admin3_options (data : List (LocationRecord α)) (selected_admin1 selected_admin2 : α) :
    List α :=
  sorted_options ((filtered_data_admin2 data selected_admin1 selected_admin2).map
    (fun r => r.admin3))

/-- Features of the GeoJSON whose `ADM2_FR` equals the selected Admin2
(lines 113-116).  A feature with no `ADM2_FR` never matches: in Python
`None == selected_admin2` is false for a string selection. -/
def filtered_features (g : GeoJson α) (selected_admin2 : α) : List (Feature α) :=
  g.features.filter (fun f => decide (f.adm2_fr = some selected_admin2))

/-- Map center: `[lat, lon]` of `final_data.iloc[0]` when non-empty
(line 97), else the world view `[0, 0]` (line 105). -/
def map_center (final : List (LocationRecord α)) : Int × Int :=
  match final with
  | [] => (0, 0)
  | r :: _ => (r.lat, r.lon)

/-- Zoom 10 on a hit, zoom 2 on the empty fallback map. -/
def map_zoom (final : List (LocationRecord α)) : Nat :=
  match final with
  | [] => 2
  | _ :: _ => 10

/-- The coordinates line `st.write(f"Coordinates for ...")` (line 94):
shown only when `final_data` is non-empty, from its first row. -/
def displayed_coords (final : List (LocationRecord α)) : Option (Int × Int) :=
  match final with
  | [] => none
  | r :: _ => some (r.lat, r.lon)

/-- One marker per row of `final_data` (lines 100-102). -/
def location_markers (final : List (LocationRecord α)) : List (LocationMarker α) :=
  final.map (fun r => ⟨r.admin1, r.admin2, r.admin3, r.lat, r.lon⟩)

/-- The `st.write("No data found ...")` branch (line 104). -/
def base_messages (final : List (LocationRecord α)) : List (Message ε) :=
  match final with
  | [] => [Message.no_data_found]
  | _ :: _ => []

/-- `load_admin2_geojson` (lines 38-46): returns the parsed file, or
`None` after `st.warning` when the file does not exist. -/
def load_admin2_geojson (geojson_file : Option (GeoJson α)) :
    Option (GeoJson α) × List (Message ε) :=
  match geojson_file with
  | some g => (some g, [])
  | none => (none, [Message.admin2_file_warning])

/-- Lines 110-135: when a GeoJSON was loaded, filter its features by the
selected Admin2; a non-empty match becomes the boundary layer, an empty
match draws nothing and emits `st.info`. -/
def boundary_overlay (gj : Option (GeoJson α)) (selected_admin2 : α) :
    Option (List (Feature α)) × List (Message ε) :=
  match gj with
  | none => (none, [])
  | some g =>
    let ff := filtered_features g selected_admin2
    if ff.isEmpty then (none, [Message.no_polygon_info]) else (some ff, [])

/-- One marker per facility row (lines 159-165 / 179-185). -/
def facility_markers (l : List (FacilityRecord α)) : List (FacilityMarker α) :=
  l.map (fun r => ⟨r.name, r.lat, r.lon⟩)

/-- One checkbox block (lines 152-167 / 172-187): when enabled, try the
CSV; on failure `st.error` and no layer, on success the marker layer and
`layers_added = True`. -/
def facility_layer (enabled : Bool) (csv : Except ε (List (FacilityRecord α)))
    (mkError : ε → Message ε) :
    Option (List (FacilityMarker α)) × List (Message ε) × Bool :=
  if enabled then
    match csv with
    | Except.error e => (none, [mkError e], false)
    | Except.ok l => (some (facility_markers l), [], true)
  else (none, [], false)

/-- One full run of the script for a given environment and widget state,
in source order: location CSV (halting via `st.stop()` on failure, lines
48-52), the cascade and base map, the boundary overlay, the two facility
layers, `LayerControl` when a layer or the GeoJSON was added (line 190),
and finally `st_folium`. -/
def run_app (env : Env α ε) (u : UserInput α) : Output α ε :=
  match env.location_csv with
  | Except.error e => ⟨[Message.location_csv_error e], none, none⟩
  | Except.ok data =>
    let final := final_data data u.selected_admin1 u.selected_admin2 u.selected_admin3
    let gj := load_admin2_geojson env.geojson_file
    let bo := boundary_overlay gj.1 u.selected_admin2
    let hosp := facility_layer u.show_hospitals env.health_csv Message.hospital_csv_error
    let prt := facility_layer u.show_ports env.port_csv Message.port_csv_error
    let lc := hosp.2.2 || prt.2.2 || gj.1.isSome
    ⟨base_messages final ++ gj.2 ++ bo.2 ++ hosp.2.1 ++ prt.2.1,
     displayed_coords final,
     some ⟨map_center final, map_zoom final, location_markers final,
           bo.1, hosp.1, prt.1, lc⟩⟩

/-- One user interaction, with the datasets threaded as explicit state.
The script only reads the loaded frames: every filter is a boolean-mask
indexing that returns a new DataFrame, and no statement assigns into
`data`, `hospital_data`, `port_data` or `admin2_geojson`, so the
post-interaction datasets are the pre-interaction ones. -/
def run_interaction (env : Env α ε) (u : UserInput α) : Output α ε × Env α ε :=
  (run_app env u, env)

/-- The hospital overlay visible to the user, if the map was rendered
with one. -/
def out_hospitals (o : Output α ε) : Option (List (FacilityMarker α)) :=
  match o.rendered with
  | none => none
  | some m => m.hospitals

/-- The ports overlay visible to the user, if the map was rendered with
one. -/
def out_ports (o : Output α ε) : Option (List (FacilityMarker α)) :=
  match o.rendered with
  | none => none
  | some m => m.ports

/-- The boundary overlay visible to the user, if the map was rendered
with one. -/
def out_boundary (o : Output α ε) : Option (List (Feature α)) :=
  match o.rendered with
  | none => none
  | some m => m.boundary

/-- One call of a `@st.cache_data` load function: `file_read` is the
value an uncached read of the (session-fixed) file yields; a cached
value is returned as-is, otherwise the read happens and is cached. -/
def cache_data_call {β : Type} (file_read : β) (cache : Option β) : β × Option β :=
  match cache with
  | some v => (v, some v)
  | none => (file_read, some file_read)

/-- The results of `n` successive calls of a memoized load function,
starting from cache state `cache`. -/
def cache_data_calls {β : Type} (file_read : β) : Nat → Option β → List β
  | 0, _ => []
  | n + 1, cache =>
    let p := cache_data_call file_read cache
    p.1 :: cache_data_calls file_read n p.2

/-! Helper lemmas. -/

theorem mem_uniqueAux [DecidableEq α] (l : List α) (seen : List α) (x : α) :
    x ∈ uniqueAux seen l ↔ x ∈ l ∧ x ∉ seen := by
  induction l generalizing seen with
  | nil => simp [uniqueAux]
  | cons a as ih =>
    by_cases h : a ∈ seen
    · rw [uniqueAux, if_pos h, ih, List.mem_cons]
      constructor
      · rintro ⟨hx, hs⟩
        exact ⟨Or.inr hx, hs⟩
      · rintro ⟨hx | hx, hs⟩
        · subst hx
          exact absurd h hs
        · exact ⟨hx, hs⟩
    · rw [uniqueAux, if_neg h, List.mem_cons, ih, List.mem_cons]
      by_cases hxa : x = a
      · subst hxa
        simp [h]
      · simp [hxa]

theorem nodup_uniqueAux [DecidableEq α] (l : List α) (seen : List α) :
    (uniqueAux seen l).Nodup := by
  induction l generalizing seen with
  | nil => simp [uniqueAux]
  | cons a as ih =>
    by_cases h : a ∈ seen
    · rw [uniqueAux, if_pos h]
      exact ih seen
    · rw [uniqueAux, if_neg h, List.nodup_cons]
      refine ⟨fun hmem => ?_, ih _⟩
      exact ((mem_uniqueAux as _ a).1 hmem).2 (List.mem_cons_self a seen)

theorem mem_unique [DecidableEq α] (l : List α) (x : α) : x ∈ unique l ↔ x ∈ l := by
  simp [unique, mem_uniqueAux]

theorem nodup_unique [DecidableEq α] (l : List α) : (unique l).Nodup :=
  nodup_uniqueAux l []

theorem mem_sorted_options (l : List α) (x : α) : x ∈ sorted_options l ↔ x ∈ l := by
  rw [sorted_options, List.mem_insertionSort, mem_unique]

theorem sorted_lt_sorted_options (l : List α) :
    List.Sorted (· < ·) (sorted_options l) := by
  have hs : List.Sorted (· ≤ ·) (sorted_options l) :=
    List.sorted_insertionSort (· ≤ ·) (unique l)
  have hn : (sorted_options l).Nodup :=
    (List.perm_insertionSort (· ≤ ·) (unique l)).symm.nodup (nodup_unique l)
  exact hs.lt_of_le hn

theorem cache_data_calls_replicate {β : Type} (file_read : β) (n : Nat) :
    cache_data_calls file_read n none = List.replicate n file_read ∧
    cache_data_calls file_read n (some file_read) = List.replicate n file_read := by
  induction n with
  | zero => exact ⟨rfl, rfl⟩
  | succ n ih =>
    refine ⟨?_, ?_⟩ <;>
      simp [cache_data_calls, cache_data_call, List.replicate, ih.1, ih.2]

theorem no_data_found_not_mem_load_msgs (gf : Option (GeoJson α)) :
    (Message.no_data_found : Message ε) ∉ (load_admin2_geojson gf).2 := by
  cases gf <;> simp [load_admin2_geojson]

theorem no_data_found_not_mem_boundary_msgs (gj : Option (GeoJson α)) (sel : α) :
    (Message.no_data_found : Message ε) ∉ (boundary_overlay gj sel).2 := by
  cases gj with
  | none => simp [boundary_overlay]
  | some g =>
    by_cases h : (filtered_features g sel).isEmpty = true <;>
      simp [boundary_overlay, h]

theorem no_data_found_not_mem_facility_msgs (enabled : Bool)
    (csv : Except ε (List (FacilityRecord α))) (mkError : ε → Message ε)
    (hmk : ∀ e, mkError e ≠ Message.no_data_found) :
    Message.no_data_found ∉ (facility_layer enabled csv mkError).2.1 := by
  cases enabled with
  | false => simp [facility_layer]
  | true =>
    cases csv with
    | error e =>
      intro h
      have h' : Message.no_data_found = mkError e := by
        simpa [facility_layer] using h
      exact hmk e h'.symm
    | ok l => simp [facility_layer]

/-! Claim theorems. -/

/-- C1: the selection cascade is an equality filter on three columns:
`filtered_data_admin1` holds exactly the rows whose `Admin1` equals the
selected province, `filtered_data_admin2` exactly those whose `Admin2`
also equals the selected district (and these are the rows the district
resp. town options are computed from), and `final_data` exactly the rows
whose `Admin1`, `Admin2` and `Admin3` equal the three selections. -/
theorem c1_cascade_equality_filter (data : List (LocationRecord α))
    (a1 a2 a3 : α) (r : LocationRecord α) :
    (r ∈ filtered_data_admin1 data a1 ↔ r ∈ data ∧ r.admin1 = a1) ∧
    (r ∈ filtered_data_admin2 data a1 a2 ↔
      r ∈ data ∧ r.admin1 = a1 ∧ r.admin2 = a2) ∧
    (r ∈ final_data data a1 a2 a3 ↔
      r ∈ data ∧ r.admin1 = a1 ∧ r.admin2 = a2 ∧ r.admin3 = a3) := by
  simp [filtered_data_admin1, filtered_data_admin2, final_data, List.mem_filter,
    and_assoc]
  tauto

/-- C10: at each of the three levels the option list offered to the user
is strictly ascending (hence duplicate-free) and holds exactly the
distinct values of the corresponding column within the rows matching the
higher-level selections. -/
theorem c10_options_sorted_distinct (data : List (LocationRecord α)) (a1 a2 : α) :
    (List.Sorted (· < ·) (admin1_options data) ∧
      ∀ x, x ∈ admin1_options data ↔ ∃ r ∈ data, r.admin1 = x) ∧
    (List.Sorted (· < ·) (admin2_options data a1) ∧
      ∀ x, x ∈ admin2_options data a1 ↔
        ∃ r ∈ filtered_data_admin1 data a1, r.admin2 = x) ∧
    (List.Sorted (· < ·) (admin3_options data a1 a2) ∧
      ∀ x, x ∈ admin3_options data a1 a2 ↔
        ∃ r ∈ filtered_data_admin2 data a1 a2, r.admin3 = x) := by
  refine ⟨⟨sorted_lt_sorted_options _, fun x => ?_⟩,
    ⟨sorted_lt_sorted_options _, fun x => ?_⟩,
    sorted_lt_sorted_options _, fun x => ?_⟩ <;>
    simp [admin1_options, admin2_options, admin3_options, mem_sorted_options,
      List.mem_map]

/-- C5: no entity is mutated after load: an interaction leaves the
loaded datasets identical, and a later interaction on the resulting
state gives the same output as on the original state. -/
theorem c5_no_mutation_after_load (env : Env α ε) (u1 u2 : UserInput α) :
    (run_interaction env u1).2 = env ∧
    (run_interaction (run_interaction env u1).2 u2).1 =
      (run_interaction env u2).1 :=
  ⟨rfl, rfl⟩

/-- C6: memoization does not change the result: every one of any number
of calls of a memoized load function, starting from the empty cache,
returns exactly the value a single uncached read of the file yields. -/
theorem c6_memoized_load_equals_uncached {β : Type} (file_read : β) (n : Nat)
    (v : β) (hv : v ∈ cache_data_calls file_read n none) : v = file_read := by
  rw [(cache_data_calls_replicate file_read n).1] at hv
  exact List.eq_of_mem_replicate hv

/-- Witness for C6 at a concrete input: three calls from the empty cache
all return the file content. -/
theorem c6_memoized_load_equals_uncached_witness :
    (5 : Nat) ∈ cache_data_calls 5 3 none ∧ (5 : Nat) = 5 :=
  ⟨by decide, c6_memoized_load_equals_uncached 5 3 5 (by decide)⟩

/-- C2: when the location table has exactly one record for the selected
triple, the coordinates displayed and used to center the map are the
`Lat` and `Lon` fields of that unique record. -/
theorem c2_unique_record_centroid (env : Env α ε) (u : UserInput α)
    (data : List (LocationRecord α)) (r : LocationRecord α)
    (hload : env.location_csv = Except.ok data)
    (hfinal : final_data data u.selected_admin1 u.selected_admin2
        u.selected_admin3 = [r]) :
    (run_app env u).displayed_coords = some (r.lat, r.lon) ∧
    ∃ m, (run_app env u).rendered = some m ∧
      m.center = (r.lat, r.lon) ∧ m.zoom = 10 := by
  simp [run_app, hload, hfinal, displayed_coords, map_center, map_zoom]

/-- Witness for C2 at a concrete one-record table. -/
theorem c2_unique_record_centroid_witness :
    (run_app
        (Env.mk (Except.ok [LocationRecord.mk 1 2 3 10 20]) (Except.ok [])
          (Except.ok []) none : Env Nat Unit)
        (UserInput.mk 1 2 3 false false)).displayed_coords = some (10, 20) ∧
    ∃ m, (run_app
        (Env.mk (Except.ok [LocationRecord.mk 1 2 3 10 20]) (Except.ok [])
          (Except.ok []) none : Env Nat Unit)
        (UserInput.mk 1 2 3 false false)).rendered = some m ∧
      m.center = (10, 20) ∧ m.zoom = 10 :=
  c2_unique_record_centroid
    (Env.mk (Except.ok [LocationRecord.mk 1 2 3 10 20]) (Except.ok [])
      (Except.ok []) none)
    (UserInput.mk 1 2 3 false false) [LocationRecord.mk 1 2 3 10 20]
    (LocationRecord.mk 1 2 3 10 20) rfl (by decide)

/-- C3 fails as stated: with the location CSV loading fine, the hospital
CSV raising, and the hospital layer enabled, the script shows the error
but still renders the map (the claim says every load failure halts
before rendering). -/
theorem c3_every_load_failure_halts_counterexample :
    Message.hospital_csv_error () ∈
      (run_app
        (Env.mk (Except.ok [LocationRecord.mk 1 2 3 10 20]) (Except.error ())
          (Except.ok []) none : Env Nat Unit)
        (UserInput.mk 1 2 3 true false)).messages ∧
    ((run_app
        (Env.mk (Except.ok [LocationRecord.mk 1 2 3 10 20]) (Except.error ())
          (Except.ok []) none : Env Nat Unit)
        (UserInput.mk 1 2 3 true false)).rendered).isSome = true := by
  decide

/-- C3 amended: a location-CSV failure shows the error and halts before
rendering; a hospital- or port-CSV failure (with that layer enabled)
shows the error, omits that layer, and the map is still rendered. -/
theorem c3_load_failure_handling (env : Env α ε) (u : UserInput α) (e : ε)
    (d : List (LocationRecord α)) :
    (env.location_csv = Except.error e →
      run_app env u = ⟨[Message.location_csv_error e], none, none⟩) ∧
    (env.location_csv = Except.ok d → u.show_hospitals = true →
      env.health_csv = Except.error e →
      Message.hospital_csv_error e ∈ (run_app env u).messages ∧
        (run_app env u).rendered.isSome = true ∧
        out_hospitals (run_app env u) = none) ∧
    (env.location_csv = Except.ok d → u.show_ports = true →
      env.port_csv = Except.error e →
      Message.port_csv_error e ∈ (run_app env u).messages ∧
        (run_app env u).rendered.isSome = true ∧
        out_ports (run_app env u) = none) := by
  refine ⟨fun h => ?_, fun hd hsh hh => ?_, fun hd hsp hp => ?_⟩
  · simp [run_app, h]
  · simp [run_app, hd, hsh, hh, out_hospitals, facility_layer]
  · simp [run_app, hd, hsp, hp, out_ports, facility_layer]

/-- Witness for the amended C3: both halting and non-halting branches at
concrete inputs. -/
theorem c3_load_failure_handling_witness :
    run_app (Env.mk (Except.error ()) (Except.ok []) (Except.ok []) none :
        Env Nat Unit) (UserInput.mk 1 2 3 false false) =
      ⟨[Message.location_csv_error ()], none, none⟩ ∧
    (Message.hospital_csv_error () ∈
      (run_app
        (Env.mk (Except.ok [LocationRecord.mk 1 2 3 10 20]) (Except.error ())
          (Except.ok []) none : Env Nat Unit)
        (UserInput.mk 1 2 3 true false)).messages ∧
      (run_app
        (Env.mk (Except.ok [LocationRecord.mk 1 2 3 10 20]) (Except.error ())
          (Except.ok []) none : Env Nat Unit)
        (UserInput.mk 1 2 3 true false)).rendered.isSome = true ∧
      out_hospitals (run_app
        (Env.mk (Except.ok [LocationRecord.mk 1 2 3 10 20]) (Except.error ())
          (Except.ok []) none : Env Nat Unit)
        (UserInput.mk 1 2 3 true false)) = none) :=
  ⟨(c3_load_failure_handling
      (Env.mk (Except.error ()) (Except.ok []) (Except.ok []) none)
      (UserInput.mk 1 2 3 false false) () []).1 rfl,
    (c3_load_failure_handling
      (Env.mk (Except.ok [LocationRecord.mk 1 2 3 10 20]) (Except.error ())
        (Except.ok []) none)
      (UserInput.mk 1 2 3 true false) () [LocationRecord.mk 1 2 3 10 20]).2.1
      rfl rfl rfl⟩

/-- C4: the boundary overlay holds exactly the GeoJSON features whose
`ADM2_FR` is string-equal to the selected district; when no feature
matches, no boundary polygon is drawn. -/
theorem c4_boundary_exact_match (env : Env α ε) (u : UserInput α)
    (g : GeoJson α) (data : List (LocationRecord α))
    (hg : env.geojson_file = some g)
    (hload : env.location_csv = Except.ok data) :
    (∀ f, f ∈ filtered_features g u.selected_admin2 ↔
      f ∈ g.features ∧ f.adm2_fr = some u.selected_admin2) ∧
    (filtered_features g u.selected_admin2 = [] →
      out_boundary (run_app env u) = none) ∧
    (filtered_features g u.selected_admin2 ≠ [] →
      out_boundary (run_app env u) =
        some (filtered_features g u.selected_admin2)) := by
  refine ⟨fun f => ?_, fun hempty => ?_, fun hne => ?_⟩
  · simp [filtered_features, List.mem_filter]
  · simp [run_app, hload, hg, load_admin2_geojson, boundary_overlay,
      out_boundary, hempty]
  · rcases hl : filtered_features g u.selected_admin2 with _ | ⟨f, ff⟩
    · exact absurd hl hne
    · simp [run_app, hload, hg, load_admin2_geojson, boundary_overlay,
        out_boundary, hl]

/-- Witness for C4: one of two features matches the selected district
and is exactly the drawn boundary. -/
theorem c4_boundary_exact_match_witness :
    out_boundary (run_app
        (Env.mk (Except.ok [LocationRecord.mk 1 2 3 10 20]) (Except.ok [])
          (Except.ok [])
          (some (GeoJson.mk [Feature.mk (some 2) 7, Feature.mk (some 9) 8])) :
          Env Nat Unit)
        (UserInput.mk 1 2 3 false false)) = some [Feature.mk (some 2) 7] :=
  ((c4_boundary_exact_match
      (Env.mk (Except.ok [LocationRecord.mk 1 2 3 10 20]) (Except.ok [])
        (Except.ok [])
        (some (GeoJson.mk [Feature.mk (some 2) 7, Feature.mk (some 9) 8])))
      (UserInput.mk 1 2 3 false false)
      (GeoJson.mk [Feature.mk (some 2) 7, Feature.mk (some 9) 8])
      [LocationRecord.mk 1 2 3 10 20] rfl rfl).2.2 (by decide)).trans (by decide)

/-- C7: the facility layers are independent of the location selection:
changing only the selected triple leaves each facility layer unchanged
(unconditionally), and an enabled facility layer whose CSV loads holds
one marker per record of its file with that record's Name, Lat and Lon,
regardless of the other layer's checkbox or CSV. -/
theorem c7_facility_layers_independent (env : Env α ε) (u : UserInput α)
    (a1 a2 a3 : α) :
    (out_hospitals (run_app env
        { u with selected_admin1 := a1, selected_admin2 := a2,
                 selected_admin3 := a3 }) = out_hospitals (run_app env u) ∧
      out_ports (run_app env
        { u with selected_admin1 := a1, selected_admin2 := a2,
                 selected_admin3 := a3 }) = out_ports (run_app env u)) ∧
    (∀ (d : List (LocationRecord α)) (hosp : List (FacilityRecord α)),
      env.location_csv = Except.ok d → env.health_csv = Except.ok hosp →
      u.show_hospitals = true →
      out_hospitals (run_app env u) = some (facility_markers hosp)) ∧
    (∀ (d : List (LocationRecord α)) (prts : List (FacilityRecord α)),
      env.location_csv = Except.ok d → env.port_csv = Except.ok prts →
      u.show_ports = true →
      out_ports (run_app env u) = some (facility_markers prts)) := by
  refine ⟨?_, fun d hosp hload hh hsh => ?_, fun d prts hload hp hsp => ?_⟩
  · cases h : env.location_csv with
    | error e => simp [run_app, h, out_hospitals, out_ports]
    | ok d => simp [run_app, h, out_hospitals, out_ports]
  · simp [run_app, hload, hh, hsh, out_hospitals, facility_layer]
  · simp [run_app, hload, hp, hsp, out_ports, facility_layer]

/-- Witness for C7: a hospital-only run and a port-only run. Changing
only the selected triple leaves the hospital layer unchanged, and each
enabled layer is one marker per record of its file even though the
other layer is disabled. -/
theorem c7_facility_layers_independent_witness :
    (out_hospitals (run_app
        (Env.mk (Except.ok [LocationRecord.mk 1 2 3 10 20])
          (Except.ok [FacilityRecord.mk 4 5 6])
          (Except.ok [FacilityRecord.mk 7 8 9]) none : Env Nat Unit)
        (UserInput.mk 100 200 300 true false)) =
      out_hospitals (run_app
        (Env.mk (Except.ok [LocationRecord.mk 1 2 3 10 20])
          (Except.ok [FacilityRecord.mk 4 5 6])
          (Except.ok [FacilityRecord.mk 7 8 9]) none : Env Nat Unit)
        (UserInput.mk 1 2 3 true false))) ∧
    out_hospitals (run_app
        (Env.mk (Except.ok [LocationRecord.mk 1 2 3 10 20])
          (Except.ok [FacilityRecord.mk 4 5 6])
          (Except.ok [FacilityRecord.mk 7 8 9]) none : Env Nat Unit)
        (UserInput.mk 1 2 3 true false)) =
      some (facility_markers [FacilityRecord.mk 4 5 6]) ∧
    out_ports (run_app
        (Env.mk (Except.ok [LocationRecord.mk 1 2 3 10 20])
          (Except.ok [FacilityRecord.mk 4 5 6])
          (Except.ok [FacilityRecord.mk 7 8 9]) none : Env Nat Unit)
        (UserInput.mk 1 2 3 false true)) =
      some (facility_markers [FacilityRecord.mk 7 8 9]) :=
  ⟨(c7_facility_layers_independent
      (Env.mk (Except.ok [LocationRecord.mk 1 2 3 10 20])
        (Except.ok [FacilityRecord.mk 4 5 6])
        (Except.ok [FacilityRecord.mk 7 8 9]) none)
      (UserInput.mk 1 2 3 true false) 100 200 300).1.1,
    (c7_facility_layers_independent
      (Env.mk (Except.ok [LocationRecord.mk 1 2 3 10 20])
        (Except.ok [FacilityRecord.mk 4 5 6])
        (Except.ok [FacilityRecord.mk 7 8 9]) none)
      (UserInput.mk 1 2 3 true false) 100 200 300).2.1
      [LocationRecord.mk 1 2 3 10 20] [FacilityRecord.mk 4 5 6] rfl rfl rfl,
    (c7_facility_layers_independent
      (Env.mk (Except.ok [LocationRecord.mk 1 2 3 10 20])
        (Except.ok [FacilityRecord.mk 4 5 6])
        (Except.ok [FacilityRecord.mk 7 8 9]) none)
      (UserInput.mk 1 2 3 false true) 100 200 300).2.2
      [LocationRecord.mk 1 2 3 10 20] [FacilityRecord.mk 7 8 9] rfl rfl rfl⟩

/-- C8: when each selection is drawn from the options offered at its
level, the final record set is non-empty, the coordinates line is shown
(so `final_data.iloc[0]` is safe) and the "No data found" branch is not
taken. -/
theorem c8_selected_options_nonempty (env : Env α ε) (u : UserInput α)
    (data : List (LocationRecord α))
    (hload : env.location_csv = Except.ok data)
    (h1 : u.selected_admin1 ∈ admin1_options data)
    (h2 : u.selected_admin2 ∈ admin2_options data u.selected_admin1)
    (h3 : u.selected_admin3 ∈
      admin3_options data u.selected_admin1 u.selected_admin2) :
    final_data data u.selected_admin1 u.selected_admin2
        u.selected_admin3 ≠ [] ∧
    (run_app env u).displayed_coords.isSome = true ∧
    Message.no_data_found ∉ (run_app env u).messages := by
  rw [admin3_options, mem_sorted_options, List.mem_map] at h3
  obtain ⟨r, hr, hre⟩ := h3
  have hrf : r ∈ final_data data u.selected_admin1 u.selected_admin2
      u.selected_admin3 := by
    rw [final_data, List.mem_filter]
    exact ⟨hr, by simpa using hre⟩
  have hne : final_data data u.selected_admin1 u.selected_admin2
      u.selected_admin3 ≠ [] := List.ne_nil_of_mem hrf
  refine ⟨hne, ?_, ?_⟩
  · rcases hf : final_data data u.selected_admin1 u.selected_admin2
        u.selected_admin3 with _ | ⟨s, fs⟩
    · exact absurd hf hne
    · simp [run_app, hload, hf, displayed_coords]
  · rcases hf : final_data data u.selected_admin1 u.selected_admin2
        u.selected_admin3 with _ | ⟨s, fs⟩
    · exact absurd hf hne
    · simp [run_app, hload, hf, base_messages]
      exact ⟨no_data_found_not_mem_load_msgs _,
        no_data_found_not_mem_boundary_msgs _ _,
        no_data_found_not_mem_facility_msgs _ _ _ (fun e => by simp),
        no_data_found_not_mem_facility_msgs _ _ _ (fun e => by simp)⟩

/-- Witness for C8 on a concrete one-row table whose selections come
from the offered options. -/
theorem c8_selected_options_nonempty_witness :
    final_data [LocationRecord.mk 1 2 3 10 20] 1 2 3 ≠ [] ∧
    (run_app
        (Env.mk (Except.ok [LocationRecord.mk 1 2 3 10 20]) (Except.ok [])
          (Except.ok []) none : Env Nat Unit)
        (UserInput.mk 1 2 3 false false)).displayed_coords.isSome = true ∧
    Message.no_data_found ∉
      (run_app
        (Env.mk (Except.ok [LocationRecord.mk 1 2 3 10 20]) (Except.ok [])
          (Except.ok []) none : Env Nat Unit)
        (UserInput.mk 1 2 3 false false)).messages :=
  c8_selected_options_nonempty
    (Env.mk (Except.ok [LocationRecord.mk 1 2 3 10 20]) (Except.ok [])
      (Except.ok []) none)
    (UserInput.mk 1 2 3 false false) [LocationRecord.mk 1 2 3 10 20] rfl
    (by decide) (by decide) (by decide)

/-- C9: a missing GeoJSON file is not an error: the loader returns
`None` after a warning, the boundary overlay is skipped, and the map is
still rendered. -/
theorem c9_missing_geojson_not_fatal (env : Env α ε) (u : UserInput α)
    (data : List (LocationRecord α))
    (hg : env.geojson_file = none)
    (hload : env.location_csv = Except.ok data) :
    load_admin2_geojson env.geojson_file =
      ((none, [Message.admin2_file_warning]) :
        Option (GeoJson α) × List (Message ε)) ∧
    Message.admin2_file_warning ∈ (run_app env u).messages ∧
    out_boundary (run_app env u) = none ∧
    (run_app env u).rendered.isSome = true := by
  refine ⟨by rw [hg]; rfl, ?_, ?_, ?_⟩ <;>
    simp [run_app, hload, hg, load_admin2_geojson, boundary_overlay,
      out_boundary]

/-- Witness for C9 at a concrete environment with no GeoJSON file. -/
theorem c9_missing_geojson_not_fatal_witness :
    load_admin2_geojson
        ((Env.mk (Except.ok [LocationRecord.mk 1 2 3 10 20]) (Except.ok [])
          (Except.ok []) none : Env Nat Unit)).geojson_file =
      ((none, [Message.admin2_file_warning]) :
        Option (GeoJson Nat) × List (Message Unit)) ∧
    Message.admin2_file_warning ∈
      (run_app
        (Env.mk (Except.ok [LocationRecord.mk 1 2 3 10 20]) (Except.ok [])
          (Except.ok []) none : Env Nat Unit)
        (UserInput.mk 1 2 3 false false)).messages ∧
    out_boundary (run_app
        (Env.mk (Except.ok [LocationRecord.mk 1 2 3 10 20]) (Except.ok [])
          (Except.ok []) none : Env Nat Unit)
        (UserInput.mk 1 2 3 false false)) = none ∧
    (run_app
        (Env.mk (Except.ok [LocationRecord.mk 1 2 3 10 20]) (Except.ok [])
          (Except.ok []) none : Env Nat Unit)
        (UserInput.mk 1 2 3 false false)).rendered.isSome = true :=
  c9_missing_geojson_not_fatal
    (Env.mk (Except.ok [LocationRecord.mk 1 2 3 10 20]) (Except.ok [])
      (Except.ok []) none)
    (UserInput.mk 1 2 3 false false) [LocationRecord.mk 1 2 3 10 20] rfl rfl

end DRCMap
